import Mathlib

/-
  Verification of the `stdlog` wiring package of the mehrvarz/log repository.

  The file embeds `src/stdlog/stdlog.go` shallowly: the package-level state
  (the cached logger and the three flag pointers) becomes an explicit state
  record threaded through the four GetFromFlags* functions, and the external
  packages `log`, `golog` and `buflog` (which are part of the repository but
  not present under src/) are modelled from the specification where a claim
  needs their behaviour.
-/

namespace Stdlog

/-- Modelled from the spec: the `log` package (not under src/) defines the
ordered severity scale Debug < Info < Notice < Warning < Error < Critical <
Alert < Emergency, plus a sentinel None that compares greater than all real
severities. -/
inductive Level where
  | Debug
  | Info
  | Notice
  | Warning
  | Error
  | Critical
  | Alert
  | Emergency
  | None
deriving DecidableEq, Repr

/-- Modelled from the spec: comparison between two severities uses integer
rank; None has the highest rank, greater than Emergency. -/
def Level.rank : Level → Nat
  | .Debug => 0
  | .Info => 1
  | .Notice => 2
  | .Warning => 3
  | .Error => 4
  | .Critical => 5
  | .Alert => 6
  | .Emergency => 7
  | .None => 8

/-- Errors of the configuration path. `invalidLevelName` is the
configuration-time error of the spec taxonomy; `nilDereference` models a Go
nil-pointer dereference of one of the package-level flag pointers. -/
inductive LogErr where
  | invalidLevelName (name : String)
  | nilDereference
deriving DecidableEq, Repr

/-- Modelled from the spec: `golog.GetLevelFromName` (the golog package is not
under src/) maps a case-defined name
(debug | info | notice | warning | error | critical | alert | emergency | none)
to its enumerated severity and fails with InvalidLevelName on unrecognized
input, surfacing the failure to the caller of the construction path. -/
def GetLevelFromName (name : String) : Except LogErr Level :=
  match name with
  | "debug" => .ok .Debug
  | "info" => .ok .Info
  | "notice" => .ok .Notice
  | "warning" => .ok .Warning
  | "error" => .ok .Error
  | "critical" => .ok .Critical
  | "alert" => .ok .Alert
  | "emergency" => .ok .Emergency
  | "none" => .ok .None
  | _ => .error (.invalidLevelName name)

/-- The nine recognized severity names. -/
def levelNames : List String :=
  ["debug", "info", "notice", "warning", "error", "critical", "alert",
   "emergency", "none"]

/-- The two streams the core can select between (os.Stdout and os.Stderr in
the Go source). -/
inductive Stream where
  | stdout
  | stderr
deriving DecidableEq, Repr

/-- Embedding of `getStream` from src/stdlog/stdlog.go: returns os.Stderr when
logToStderr is true and os.Stdout otherwise. -/
def getStream (logToStderr : Bool) : Stream :=
  if logToStderr then .stderr else .stdout

/-- The logger values the wiring layer can construct. The five constructors
correspond to the five constructor calls occurring in src/stdlog/stdlog.go:
golog.New, golog.NewDate, golog.NewWriter, golog.NewDateWriter and buflog.New.
The writer callback is kept abstract as a value of the type parameter W. -/
inductive Logger (W : Type) where
  | direct (out : Stream) (threshold : Level)
  | directDate (out : Stream) (threshold : Level)
  | directWriter (out : Stream) (threshold : Level) (w : W)
  | directDateWriter (out : Stream) (threshold : Level) (w : W)
  | buffered (out : Stream) (threshold : Level) (flushThreshold : Level)
deriving DecidableEq, Repr

/-- Modelled from the spec: golog.New builds the date-less Direct variant. -/
def golog.New {W : Type} (out : Stream) (threshold : Level) : Logger W :=
  .direct out threshold

/-- Modelled from the spec: golog.NewDate builds the Direct variant with a
timestamp prefix. -/
def golog.NewDate {W : Type} (out : Stream) (threshold : Level) : Logger W :=
  .directDate out threshold

/-- Modelled from the spec: golog.NewWriter builds the Direct variant with an
injected line-writer function overriding the default line format. -/
def golog.NewWriter {W : Type} (out : Stream) (threshold : Level) (w : W) :
    Logger W :=
  .directWriter out threshold w

/-- Modelled from the spec: golog.NewDateWriter builds the dated Direct
variant with an injected line-writer function. -/
def golog.NewDateWriter {W : Type} (out : Stream) (threshold : Level) (w : W) :
    Logger W :=
  .directDateWriter out threshold w

/-- Modelled from the spec: buflog.New builds the Buffered variant from a
sink, a threshold and a flush threshold; no writer callback is taken. -/
def buflog.New {W : Type} (out : Stream) (threshold : Level)
    (flushThreshold : Level) : Logger W :=
  .buffered out threshold flushThreshold

/-- The line-writer carried by a logger value, if any: only the two Writer
variants of golog carry the injected callback. -/
def lineWriter {W : Type} : Logger W → Option W
  | .directWriter _ _ w => some w
  | .directDateWriter _ _ w => some w
  | _ => none

/-- The package-level mutable state of src/stdlog/stdlog.go: the cached
logger and the three flag pointers (nil pointers become Option.none; a
non-nil pointer holds the resolved flag value, since GetFromFlags* reads the
pointers only after flag.Parse has run). -/
structure PkgState (W : Type) where
  logger : Option (Logger W)
  thresholdName : Option String
  logToStderr : Option Bool
  flushThresholdName : Option String
deriving DecidableEq, Repr

/-- Embedding of `GetFromFlags` from src/stdlog/stdlog.go. Returns the cached
logger unchanged when one exists; otherwise dereferences the three flag
pointers (a nil pointer is a nilDereference error), resolves both level
names, nils the pointers, and constructs golog.New when the flush threshold
is None and buflog.New otherwise. Level-name resolution failure aborts the
construction (modelled from the spec, which requires InvalidLevelName to
surface from the construction path). -/
def GetFromFlags {W : Type} (s : PkgState W) :
    Except LogErr (Logger W × PkgState W) :=
  match s.logger with
  | some l => .ok (l, s)
  | none =>
    match s.thresholdName with
    | none => .error .nilDereference
    | some tn =>
      match GetLevelFromName tn with
      | .error e => .error e
      | .ok threshold =>
        match s.logToStderr with
        | none => .error .nilDereference
        | some b =>
          let out := getStream b
          match s.flushThresholdName with
          | none => .error .nilDereference
          | some fn =>
            match GetLevelFromName fn with
            | .error e => .error e
            | .ok flushThreshold =>
              let lg : Logger W :=
                if flushThreshold = Level.None then golog.New out threshold
                else buflog.New out threshold flushThreshold
              .ok (lg, { logger := some lg, thresholdName := none,
                         logToStderr := none, flushThresholdName := none })

/-- Embedding of `GetFromFlagsDate` from src/stdlog/stdlog.go: identical to
GetFromFlags except that the flush-threshold-None branch constructs
golog.NewDate. -/
def GetFromFlagsDate {W : Type} (s : PkgState W) :
    Except LogErr (Logger W × PkgState W) :=
  match s.logger with
  | some l => .ok (l, s)
  | none =>
    match s.thresholdName with
    | none => .error .nilDereference
    | some tn =>
      match GetLevelFromName tn with
      | .error e => .error e
      | .ok threshold =>
        match s.logToStderr with
        | none => .error .nilDereference
        | some b =>
          let out := getStream b
          match s.flushThresholdName with
          | none => .error .nilDereference
          | some fn =>
            match GetLevelFromName fn with
            | .error e => .error e
            | .ok flushThreshold =>
              let lg : Logger W :=
                if flushThreshold = Level.None then golog.NewDate out threshold
                else buflog.New out threshold flushThreshold
              .ok (lg, { logger := some lg, thresholdName := none,
                         logToStderr := none, flushThresholdName := none })

/-- Embedding of `GetFromFlagsWriter` from src/stdlog/stdlog.go: identical to
GetFromFlags except that the flush-threshold-None branch constructs
golog.NewWriter with the supplied writer. In the other branch buflog.New is
called exactly as in GetFromFlags, without the writer. -/
def GetFromFlagsWriter {W : Type} (myWriter : W) (s : PkgState W) :
    Except LogErr (Logger W × PkgState W) :=
  match s.logger with
  | some l => .ok (l, s)
  | none =>
    match s.thresholdName with
    | none => .error .nilDereference
    | some tn =>
      match GetLevelFromName tn with
      | .error e => .error e
      | .ok threshold =>
        match s.logToStderr with
        | none => .error .nilDereference
        | some b =>
          let out := getStream b
          match s.flushThresholdName with
          | none => .error .nilDereference
          | some fn =>
            match GetLevelFromName fn with
            | .error e => .error e
            | .ok flushThreshold =>
              let lg : Logger W :=
                if flushThreshold = Level.None then
                  golog.NewWriter out threshold myWriter
                else buflog.New out threshold flushThreshold
              .ok (lg, { logger := some lg, thresholdName := none,
                         logToStderr := none, flushThresholdName := none })

/-- Embedding of `GetFromFlagsDateWriter` from src/stdlog/stdlog.go:
identical to GetFromFlagsWriter except that the flush-threshold-None branch
constructs golog.NewDateWriter. -/
def GetFromFlagsDateWriter {W : Type} (myWriter : W) (s : PkgState W) :
    Except LogErr (Logger W × PkgState W) :=
  match s.logger with
  | some l => .ok (l, s)
  | none =>
    match s.thresholdName with
    | none => .error .nilDereference
    | some tn =>
      match GetLevelFromName tn with
      | .error e => .error e
      | .ok threshold =>
        match s.logToStderr with
        | none => .error .nilDereference
        | some b =>
          let out := getStream b
          match s.flushThresholdName with
          | none => .error .nilDereference
          | some fn =>
            match GetLevelFromName fn with
            | .error e => .error e
            | .ok flushThreshold =>
              let lg : Logger W :=
                if flushThreshold = Level.None then
                  golog.NewDateWriter out threshold myWriter
                else buflog.New out threshold flushThreshold
              .ok (lg, { logger := some lg, thresholdName := none,
                         logToStderr := none, flushThresholdName := none })

/-- The default value a registered flag declares: a string default for
flag.String, a boolean default for flag.Bool. -/
inductive FlagDefault where
  | str (s : String)
  | boolean (b : Bool)
deriving DecidableEq, Repr

/-- The flag registry of the Go flag package: the ordered list of registered
flags, each with its name, default value and usage string. -/
structure FlagRegistry where
  flags : List (String × FlagDefault × String)
deriving DecidableEq, Repr

/-- Embedding of flag.String: registers a string flag and yields the pointer
content before parsing, which is the default value. -/
def flagString (r : FlagRegistry) (name dflt usage : String) :
    FlagRegistry × String :=
  ({ flags := r.flags ++ [(name, .str dflt, usage)] }, dflt)

/-- Embedding of flag.Bool: registers a boolean flag and yields the pointer
content before parsing, which is the default value. -/
def flagBool (r : FlagRegistry) (name : String) (dflt : Bool)
    (usage : String) : FlagRegistry × Bool :=
  ({ flags := r.flags ++ [(name, .boolean dflt, usage)] }, dflt)

/-- Embedding of `init` from src/stdlog/stdlog.go: registers the three flags
in source order and stores the returned pointers into the package state,
whose logger starts out nil. -/
def stdlogInit (W : Type) (r : FlagRegistry) : FlagRegistry × PkgState W :=
  let p1 := flagString r "log" "info" "sets the logging threshold"
  let p2 := flagBool p1.1 "stderr" false "outputs to standard error (stderr)"
  let p3 := flagString p2.1 "flushlog" "none" "sets the flush trigger level"
  (p3.1, { logger := none, thresholdName := some p1.2,
           logToStderr := some p2.2, flushThresholdName := some p3.2 })

/-- The resolved command-line flag values after flag.Parse: each field holds
the value of the corresponding option (its default when the option was not
given on the command line). -/
structure Flags where
  log : String
  stderr : Bool
  flushlog : String
deriving DecidableEq, Repr

/-- The package state right after flag.Parse has resolved the three options:
no logger cached yet, all three pointers non-nil and holding the resolved
values. -/
def initialState (W : Type) (fl : Flags) : PkgState W :=
  { logger := none, thresholdName := some fl.log,
    logToStderr := some fl.stderr, flushThresholdName := some fl.flushlog }

/-- A caller-side choice among the four GetFromFlags* accessors, carrying the
writer argument where the accessor takes one. -/
inductive CallKind (W : Type) where
  | plain
  | date
  | withWriter (w : W)
  | withDateWriter (w : W)
deriving DecidableEq, Repr

/-- Runs the accessor selected by a CallKind on the package state. -/
def dispatchCall {W : Type} : CallKind W → PkgState W →
    Except LogErr (Logger W × PkgState W)
  | .plain => GetFromFlags
  | .date => GetFromFlagsDate
  | .withWriter w => GetFromFlagsWriter w
  | .withDateWriter w => GetFromFlagsDateWriter w

/-- A sequential execution of GetFromFlags* calls: each call updates the
package state; a construction-path error aborts the execution. -/
def runCalls {W : Type} (s : PkgState W) : List (CallKind W) →
    Except LogErr (PkgState W)
  | [] => .ok s
  | c :: cs =>
    match dispatchCall c s with
    | .error e => .error e
    | .ok p => runCalls p.2 cs

/-- A log event: a severity and a rendered message body. -/
structure Event where
  sev : Level
  msg : String
deriving DecidableEq, Repr

/-- Modelled from the spec: the state of a Buffered logger (the buflog
package is not under src/): its two thresholds, the ordered pending buffer,
the one-shot flushed flag, and the ordered sequence of lines written to the
sink so far. -/
structure BufLogger where
  threshold : Level
  flushThreshold : Level
  buffer : List Event
  flushed : Bool
  output : List Event
deriving DecidableEq, Repr

/-- Modelled from the spec: buflog construction starts with an empty buffer,
the flushed flag unset and nothing written. -/
def bufNew (threshold flushThreshold : Level) : BufLogger :=
  { threshold := threshold, flushThreshold := flushThreshold,
    buffer := [], flushed := false, output := [] }

/-- Modelled from the spec, section 4.3 algorithm per call: below threshold
is a no-op; after the flush the line is written immediately; before the flush
the line is appended to the pending buffer, and if the event reaches the
flush threshold (and the flush threshold is not None) every buffered line is
written in insertion order, the buffer is cleared and the flag set. -/
def bufLog (s : BufLogger) (e : Event) : BufLogger :=
  if e.sev.rank < s.threshold.rank then s
  else if s.flushed then { s with output := s.output ++ [e] }
  else
    let buf := s.buffer ++ [e]
    if s.flushThreshold ≠ Level.None ∧ s.flushThreshold.rank ≤ e.sev.rank then
      { s with buffer := [], flushed := true, output := s.output ++ buf }
    else { s with buffer := buf }

/-- Folds a sequence of events through the Buffered logger. -/
def bufRun (s : BufLogger) : List Event → BufLogger
  | [] => s
  | e :: es => bufRun (bufLog s e) es

/-- The sink-shared state of the interleaving model of concurrent first calls
to GetFromFlags: the package-level logger variable and a count of how many
times a logger construction has been performed. -/
structure GlobalState (W : Type) where
  logger : Option (Logger W)
  constructions : Nat
deriving DecidableEq, Repr

/-- The control point of one goroutine executing GetFromFlags: before the
nil-check of the logger variable, past the nil-check and about to construct
and assign, finished with a return value, or stopped on a construction-path
error. -/
inductive ThreadState (W : Type) where
  | start
  | constructing
  | finished (ret : Logger W)
  | failed
deriving DecidableEq, Repr

/-- The logger GetFromFlags constructs from resolved flag values: direct when
the resolved flush threshold is None, buffered otherwise; none when a level
name does not resolve. -/
def buildFromFlags {W : Type} (fl : Flags) : Option (Logger W) :=
  match GetLevelFromName fl.log, GetLevelFromName fl.flushlog with
  | .ok threshold, .ok flushThreshold =>
    some (if flushThreshold = Level.None then
            golog.New (getStream fl.stderr) threshold
          else buflog.New (getStream fl.stderr) threshold flushThreshold)
  | _, _ => none

/-- One atomic step of a goroutine running GetFromFlags against the shared
package state. The Go source checks `logger != nil` and, in a separate later
statement, assigns `logger = ...`; nothing in src/stdlog/stdlog.go serializes
the two, so the check and the construct-and-assign are separate steps that
other goroutines can interleave with. -/
def threadStep {W : Type} (fl : Flags) (g : GlobalState W)
    (t : ThreadState W) : GlobalState W × ThreadState W :=
  match t with
  | .start =>
    match g.logger with
    | some l => (g, .finished l)
    | none => (g, .constructing)
  | .constructing =>
    match buildFromFlags (W := W) fl with
    | some lg =>
      ({ logger := some lg, constructions := g.constructions + 1 },
       .finished lg)
    | none => (g, .failed)
  | .finished r => (g, .finished r)
  | .failed => (g, .failed)

/-- Two goroutines concurrently inside GetFromFlags, plus the shared state. -/
structure RaceState (W : Type) where
  global : GlobalState W
  t1 : ThreadState W
  t2 : ThreadState W
deriving DecidableEq, Repr

/-- One scheduler step: true runs goroutine 1, false runs goroutine 2. -/
def raceStep {W : Type} (fl : Flags) (s : RaceState W) (who : Bool) :
    RaceState W :=
  if who then
    let p := threadStep fl s.global s.t1
    { global := p.1, t1 := p.2, t2 := s.t2 }
  else
    let p := threadStep fl s.global s.t2
    { global := p.1, t1 := s.t1, t2 := p.2 }

/-- Runs a schedule of interleaved steps of the two goroutines. -/
def raceRun {W : Type} (fl : Flags) (s : RaceState W) : List Bool →
    RaceState W
  | [] => s
  | who :: rest => raceRun fl (raceStep fl s who) rest

/-- Both goroutines at their first statement, shared logger variable nil, no
construction performed yet. -/
def raceStart (W : Type) : RaceState W :=
  { global := { logger := none, constructions := 0 },
    t1 := .start, t2 := .start }

/-- The flag values when no option is given on the command line: the
defaults registered by init. -/
def defaultFlags : Flags :=
  { log := "info", stderr := false, flushlog := "none" }

/-- The flag pointers of the package state are live: whenever the cached
logger is still nil, none of the three pointers is nil. -/
def PtrsLive {W : Type} (s : PkgState W) : Prop :=
  s.logger = none →
    s.thresholdName ≠ none ∧ s.logToStderr ≠ none ∧ s.flushThresholdName ≠ none

/- ## Helper lemmas -/

/-- A name outside the nine recognized severity names resolves to the
InvalidLevelName error carrying that name. -/
theorem getLevelFromName_unrecognized {n : String} (h : n ∉ levelNames) :
    GetLevelFromName n = .error (.invalidLevelName n) := by
  unfold GetLevelFromName
  split <;> simp_all [levelNames]

/-- Level-name resolution never produces the nil-dereference error. -/
theorem getLevelFromName_not_nil (n : String) :
    GetLevelFromName n ≠ .error .nilDereference := by
  unfold GetLevelFromName
  split <;> simp

/-- Whichever accessor runs, a completed call leaves the logger it returned
stored in the package state. -/
theorem dispatch_stores {W : Type} {c : CallKind W} {s s2 : PkgState W}
    {l : Logger W} (h : dispatchCall c s = .ok (l, s2)) :
    s2.logger = some l := by
  cases c <;> simp only [dispatchCall] at h
  all_goals
    first
      | unfold GetFromFlags at h
      | unfold GetFromFlagsDate at h
      | unfold GetFromFlagsWriter at h
      | unfold GetFromFlagsDateWriter at h
  all_goals repeat' split at h
  all_goals
    first
      | (simp only [Except.ok.injEq, Prod.mk.injEq] at h
         obtain ⟨rfl, rfl⟩ := h
         rfl)
      | simp_all

/-- Whichever accessor runs, a state that already holds a logger is returned
unchanged together with that logger. -/
theorem dispatch_cached {W : Type} (c : CallKind W) {s : PkgState W}
    {l : Logger W} (h : s.logger = some l) :
    dispatchCall c s = .ok (l, s) := by
  cases c <;>
    simp [dispatchCall, GetFromFlags, GetFromFlagsDate, GetFromFlagsWriter,
          GetFromFlagsDateWriter, h]

/-- Whichever accessor runs, a state with live flag pointers never produces a
nil-pointer dereference. -/
theorem dispatch_no_nil {W : Type} (c : CallKind W) {s : PkgState W}
    (hs : PtrsLive s) :
    dispatchCall c s ≠ .error .nilDereference := by
  cases c <;> simp only [dispatchCall]
  all_goals
    first
      | unfold GetFromFlags
      | unfold GetFromFlagsDate
      | unfold GetFromFlagsWriter
      | unfold GetFromFlagsDateWriter
  all_goals repeat' split
  all_goals intro hc
  all_goals
    first
      | (injection hc with h2
         subst h2
         exact getLevelFromName_not_nil _ (by assumption))
      | simp_all [PtrsLive]

/-- Sequential runs of GetFromFlags* calls started from a pointer-live state
never produce a nil-pointer dereference. -/
theorem runCalls_no_nil_aux {W : Type} (cs : List (CallKind W)) :
    ∀ s : PkgState W, PtrsLive s →
      runCalls s cs ≠ .error .nilDereference := by
  induction cs with
  | nil =>
    intro s _ h
    exact Except.noConfusion h
  | cons c cs ih =>
    intro s hs
    cases hd : dispatchCall c s with
    | error e =>
      have hne := dispatch_no_nil c hs
      rw [hd] at hne
      simp only [runCalls, hd]
      intro h2
      injection h2 with h3
      exact hne (by rw [h3])
    | ok p =>
      simp only [runCalls, hd]
      refine ih p.2 fun hnone => ?_
      rw [dispatch_stores hd] at hnone
      exact Option.noConfusion hnone

/-- An event below the threshold is a no-op for the Buffered logger. -/
theorem bufLog_drop {s : BufLogger} {e : Event}
    (h : e.sev.rank < s.threshold.rank) : bufLog s e = s := by
  unfold bufLog
  rw [if_pos h]

/-- A qualifying event below the flush threshold is appended to the pending
buffer of a not-yet-flushed Buffered logger and writes nothing. -/
theorem bufLog_buffers {s : BufLogger} {e : Event}
    (h1 : ¬ e.sev.rank < s.threshold.rank) (h2 : s.flushed = false)
    (h3 : ¬ (s.flushThreshold ≠ Level.None ∧
             s.flushThreshold.rank ≤ e.sev.rank)) :
    bufLog s e = { s with buffer := s.buffer ++ [e] } := by
  unfold bufLog
  rw [if_neg h1, h2]
  simp only [Bool.false_eq_true, if_false]
  rw [if_neg h3]

/-- An event at or above a non-None flush threshold drains the pending buffer
of a not-yet-flushed Buffered logger: every buffered line is written in
insertion order, followed by the triggering line, the buffer is cleared and
the flushed flag set. -/
theorem bufLog_flushes {s : BufLogger} {e : Event}
    (h1 : ¬ e.sev.rank < s.threshold.rank) (h2 : s.flushed = false)
    (h3 : s.flushThreshold ≠ Level.None)
    (h4 : s.flushThreshold.rank ≤ e.sev.rank) :
    bufLog s e = { s with buffer := [], flushed := true,
                          output := s.output ++ (s.buffer ++ [e]) } := by
  unfold bufLog
  rw [if_neg h1, h2]
  simp only [Bool.false_eq_true, if_false]
  rw [if_pos ⟨h3, h4⟩]

/-- While every event stays strictly below the flush threshold, a
not-yet-flushed Buffered logger writes nothing and accumulates exactly the
events at or above the threshold, in arrival order, behind its pending
buffer. -/
theorem bufRun_quiet (F : Level) (es : List Event)
    (hes : ∀ e ∈ es, e.sev.rank < F.rank) :
    ∀ s : BufLogger, s.flushThreshold = F → s.flushed = false →
      bufRun s es =
        { s with buffer := s.buffer ++
            es.filter fun e => decide (s.threshold.rank ≤ e.sev.rank) } := by
  induction es with
  | nil =>
    intro s hF hfl
    simp [bufRun]
  | cons e es ih =>
    intro s hF hfl
    have he : e.sev.rank < F.rank := hes e (List.mem_cons_self e es)
    have hes2 : ∀ x ∈ es, x.sev.rank < F.rank :=
      fun x hx => hes x (List.mem_cons_of_mem e hx)
    simp only [bufRun]
    by_cases hlt : e.sev.rank < s.threshold.rank
    · rw [bufLog_drop hlt, ih hes2 s hF hfl]
      have : decide (s.threshold.rank ≤ e.sev.rank) = false := by
        simp [Nat.not_le.mpr hlt]
      simp [List.filter_cons, this]
    · have hnoflush : ¬ (s.flushThreshold ≠ Level.None ∧
          s.flushThreshold.rank ≤ e.sev.rank) := by
        rw [hF]
        rintro ⟨-, hge⟩
        exact absurd he (Nat.not_lt.mpr hge)
      rw [bufLog_buffers hlt hfl hnoflush,
          ih hes2 { s with buffer := s.buffer ++ [e] } (by simpa) (by simpa)]
      have : decide (s.threshold.rank ≤ e.sev.rank) = true := by
        simp [Nat.le_of_not_lt hlt]
      simp [List.filter_cons, this]

/- ## Claim theorems -/

/-- Claim C3: for a Buffered logger whose flush threshold F is not None (and
whose threshold T satisfies rank T less or equal rank F), a sequence of
events all strictly below F produces no output; the first event at or above
F then makes every buffered line appear in original insertion order followed
by the triggering line, each exactly once. -/
theorem C3_buffered_flush_behavior (T F : Level) (es : List Event) (e : Event)
    (hF : F ≠ Level.None) (hTF : T.rank ≤ F.rank)
    (hes : ∀ x ∈ es, x.sev.rank < F.rank)
    (he : F.rank ≤ e.sev.rank) :
    (bufRun (bufNew T F) es).output = [] ∧
    (bufLog (bufRun (bufNew T F) es) e).output =
      (es.filter fun x => decide (T.rank ≤ x.sev.rank)) ++ [e] := by
  have hq := bufRun_quiet F es hes (bufNew T F) rfl rfl
  rw [hq]
  refine ⟨rfl, ?_⟩
  rw [bufLog_flushes (Nat.not_lt.mpr (le_trans hTF he)) rfl hF he]
  simp [bufNew]

/-- Witness for C3 at the concrete scenario of the spec: threshold Debug,
flush threshold Error, events Info a, Debug b, Warning c buffered silently,
then Error d flushes a, b, c, d in order. -/
theorem C3_witness :
    (bufRun (bufNew Level.Debug Level.Error)
        [⟨Level.Info, "a"⟩, ⟨Level.Debug, "b"⟩,
         ⟨Level.Warning, "c"⟩]).output = [] ∧
    (bufLog (bufRun (bufNew Level.Debug Level.Error)
        [⟨Level.Info, "a"⟩, ⟨Level.Debug, "b"⟩, ⟨Level.Warning, "c"⟩])
        ⟨Level.Error, "d"⟩).output =
      (([⟨Level.Info, "a"⟩, ⟨Level.Debug, "b"⟩,
         ⟨Level.Warning, "c"⟩] : List Event).filter
        fun x => decide (Level.Debug.rank ≤ x.sev.rank)) ++
        [⟨Level.Error, "d"⟩] :=
  C3_buffered_flush_behavior Level.Debug Level.Error
    [⟨Level.Info, "a"⟩, ⟨Level.Debug, "b"⟩, ⟨Level.Warning, "c"⟩]
    ⟨Level.Error, "d"⟩ (by decide) (by decide) (by decide) (by decide)

/-- Counterexample to claim C6 as stated: at the resolved configuration
log=info, flushlog=error (a flush threshold other than None), the first,
logger-constructing GetFromFlagsWriter call with writer 7 returns the
Buffered logger built without the writer: the returned logger carries no
line-writer at all. -/
theorem C6_counterexample :
    GetFromFlagsWriter 7 (initialState Nat ⟨"info", false, "error"⟩) =
      .ok (buflog.New Stream.stdout Level.Info Level.Error,
        { logger := some (buflog.New Stream.stdout Level.Info Level.Error),
          thresholdName := none, logToStderr := none,
          flushThresholdName := none }) ∧
    lineWriter
        (buflog.New Stream.stdout Level.Info Level.Error : Logger Nat) =
      none :=
  ⟨rfl, rfl⟩

/-- Claim C6 (amended): on the first, logger-constructing call the writer
function supplied to GetFromFlagsWriter or GetFromFlagsDateWriter is
installed as the line-writer exactly when the resolved flush threshold is
None; with any other flush threshold both accessors construct the Buffered
logger, which carries no line-writer. -/
theorem C6_writer_used_iff_flush_none {W : Type} (tn fn : String) (b : Bool)
    (T F : Level) (w : W) (l l2 : Logger W) (s1 s2 : PkgState W)
    (hT : GetLevelFromName tn = .ok T) (hF : GetLevelFromName fn = .ok F)
    (h1 : GetFromFlagsWriter w (initialState W ⟨tn, b, fn⟩) = .ok (l, s1))
    (h2 : GetFromFlagsDateWriter w (initialState W ⟨tn, b, fn⟩) =
      .ok (l2, s2)) :
    (F = Level.None →
      l = golog.NewWriter (getStream b) T w ∧
      l2 = golog.NewDateWriter (getStream b) T w ∧
      lineWriter l = some w ∧ lineWriter l2 = some w) ∧
    (F ≠ Level.None →
      l = buflog.New (getStream b) T F ∧ l2 = l ∧ lineWriter l = none) := by
  by_cases hFN : F = Level.None
  · simp only [GetFromFlagsWriter, GetFromFlagsDateWriter, initialState, hT,
      hF, hFN, if_pos rfl, Except.ok.injEq, Prod.mk.injEq] at h1 h2
    refine ⟨fun _ => ⟨h1.1.symm, h2.1.symm, ?_, ?_⟩,
            fun hne => absurd hFN hne⟩
    · rw [← h1.1]; rfl
    · rw [← h2.1]; rfl
  · simp only [GetFromFlagsWriter, GetFromFlagsDateWriter, initialState, hT,
      hF, if_neg hFN, Except.ok.injEq, Prod.mk.injEq] at h1 h2
    refine ⟨fun heq => absurd heq hFN,
            fun _ => ⟨h1.1.symm, ?_, ?_⟩⟩
    · rw [← h1.1, ← h2.1]
    · rw [← h1.1]; rfl

/-- Witness for the amended C6 at the configuration log=info, flushlog=none
with writer 5: both writer accessors install the writer. -/
theorem C6_witness :
    (Level.None = Level.None →
      (golog.NewWriter Stream.stdout Level.Info 5 : Logger Nat) =
        golog.NewWriter Stream.stdout Level.Info 5 ∧
      (golog.NewDateWriter Stream.stdout Level.Info 5 : Logger Nat) =
        golog.NewDateWriter Stream.stdout Level.Info 5 ∧
      lineWriter (golog.NewWriter Stream.stdout Level.Info 5 : Logger Nat) =
        some 5 ∧
      lineWriter
          (golog.NewDateWriter Stream.stdout Level.Info 5 : Logger Nat) =
        some 5) ∧
    (Level.None ≠ Level.None →
      (golog.NewWriter Stream.stdout Level.Info 5 : Logger Nat) =
        buflog.New Stream.stdout Level.Info Level.None ∧
      (golog.NewDateWriter Stream.stdout Level.Info 5 : Logger Nat) =
        golog.NewWriter Stream.stdout Level.Info 5 ∧
      lineWriter (golog.NewWriter Stream.stdout Level.Info 5 : Logger Nat) =
        none) :=
  C6_writer_used_iff_flush_none "info" "none" false Level.Info Level.None 5
    _ _ _ _ rfl rfl rfl rfl

/-- Claim C8 fails on the code: the cached logger is a plain package-level
variable guarded only by a nil check, with no one-time-initialization
primitive, so two goroutines that both pass the nil check before either
assignment each construct and store a logger. The schedule below interleaves
two first calls at the default configuration and performs two
constructions, violating construction-at-most-once. -/
theorem C8_double_construction :
    (raceRun defaultFlags (raceStart Unit)
        [true, false, true, false]).global.constructions = 2 ∧
    1 < (raceRun defaultFlags (raceStart Unit)
        [true, false, true, false]).global.constructions := by
  exact ⟨rfl, by decide⟩

/-- Claim C1: for every resolved configuration, when the severity resolved
from the flushlog option is None the constructed logger is the Direct variant
(golog.New), and for any other resolved severity it is the Buffered variant
(buflog.New); GetFromFlags never constructs a Buffered logger when the flush
threshold is None. -/
theorem C1_getFromFlags_selects_variant {W : Type} (tn fn : String) (b : Bool)
    (T F : Level) (l : Logger W) (s2 : PkgState W)
    (hT : GetLevelFromName tn = .ok T)
    (hF : GetLevelFromName fn = .ok F)
    (h : GetFromFlags (initialState W ⟨tn, b, fn⟩) = .ok (l, s2)) :
    (F = Level.None → l = golog.New (getStream b) T) ∧
    (F ≠ Level.None → l = buflog.New (getStream b) T F) := by
  by_cases hFN : F = Level.None
  · simp only [GetFromFlags, initialState, hT, hF, hFN, if_true] at h
    simp only [Except.ok.injEq, Prod.mk.injEq] at h
    exact ⟨fun _ => h.1.symm, fun hne => absurd hFN hne⟩
  · simp only [GetFromFlags, initialState, hT, hF, hFN, if_false] at h
    simp only [if_neg hFN, Except.ok.injEq, Prod.mk.injEq] at h
    exact ⟨fun heq => absurd heq hFN, fun _ => h.1.symm⟩

/-- Witness for C1 at the default configuration, whose flush threshold
resolves to None and whose threshold resolves to Info. -/
theorem C1_witness :
    (Level.None = Level.None →
      (golog.New Stream.stdout Level.Info : Logger Unit) =
        golog.New Stream.stdout Level.Info) ∧
    (Level.None ≠ Level.None →
      (golog.New Stream.stdout Level.Info : Logger Unit) =
        buflog.New Stream.stdout Level.Info Level.None) :=
  C1_getFromFlags_selects_variant "info" "none" false Level.Info Level.None
    (golog.New Stream.stdout Level.Info)
    { logger := some (golog.New Stream.stdout Level.Info),
      thresholdName := none, logToStderr := none, flushThresholdName := none }
    rfl rfl rfl

/-- Claim C2: once any of the four GetFromFlags* accessors has completed and
stored a logger, every subsequent call to any of the accessors returns that
same logger, without re-reading the flags, constructing a new logger or
changing the state, whichever accessor or writer argument is used later. -/
theorem C2_logger_constructed_once {W : Type} (c c2 : CallKind W)
    (s s2 : PkgState W) (l : Logger W)
    (h : dispatchCall c s = .ok (l, s2)) :
    dispatchCall c2 s2 = .ok (l, s2) :=
  dispatch_cached c2 (dispatch_stores h)

/-- Witness for C2: after a first completed GetFromFlags call at the default
configuration, a GetFromFlagsDate call returns the cached direct logger. -/
theorem C2_witness :
    dispatchCall (CallKind.date (W := Unit))
      { logger := some (golog.New Stream.stdout Level.Info),
        thresholdName := none, logToStderr := none,
        flushThresholdName := none } =
    .ok (golog.New Stream.stdout Level.Info,
      { logger := some (golog.New Stream.stdout Level.Info),
        thresholdName := none, logToStderr := none,
        flushThresholdName := none }) :=
  C2_logger_constructed_once CallKind.plain CallKind.date
    (initialState Unit defaultFlags) _ _ rfl

/-- Claim C4: init registers exactly three configuration options: log
defaulting to the name info, stderr defaulting to false, flushlog defaulting
to the name none. -/
theorem C4_init_registers_three_flags :
    ((stdlogInit Unit { flags := [] }).1.flags.map fun f => (f.1, f.2.1)) =
      [("log", FlagDefault.str "info"), ("stderr", FlagDefault.boolean false),
       ("flushlog", FlagDefault.str "none")] := rfl

/-- Claim C5: the sink-selection function returns the standard-error stream
for true and the standard-output stream for false, and never selects any
other sink. -/
theorem C5_getStream_selects_sink :
    getStream true = Stream.stderr ∧ getStream false = Stream.stdout ∧
    ∀ b : Bool, getStream b = Stream.stderr ∨ getStream b = Stream.stdout := by
  refine ⟨rfl, rfl, fun b => ?_⟩
  cases b
  · exact Or.inr rfl
  · exact Or.inl rfl

/-- Claim C7: an unrecognized severity name passed through the configuration
path, be it the log or the flushlog option, makes logger construction surface
the InvalidLevelName error carrying that name instead of silently resolving
it to some valid severity. -/
theorem C7_invalid_level_name_surfaces {W : Type} (n tn fn : String)
    (b : Bool) (T : Level) (hn : n ∉ levelNames)
    (hT : GetLevelFromName tn = .ok T) :
    GetFromFlags (initialState W ⟨n, b, fn⟩) =
      .error (.invalidLevelName n) ∧
    GetFromFlags (initialState W ⟨tn, b, n⟩) =
      .error (.invalidLevelName n) := by
  constructor
  · simp [GetFromFlags, initialState, getLevelFromName_unrecognized hn]
  · simp [GetFromFlags, initialState, hT, getLevelFromName_unrecognized hn]

/-- Witness for C7 at the unrecognized name verbose, in the log position and
in the flushlog position. -/
theorem C7_witness :
    GetFromFlags (initialState Unit ⟨"verbose", false, "none"⟩) =
      .error (.invalidLevelName "verbose") ∧
    GetFromFlags (initialState Unit ⟨"info", false, "verbose"⟩) =
      .error (.invalidLevelName "verbose") :=
  C7_invalid_level_name_surfaces "verbose" "info" "none" false Level.Info
    (by decide) rfl

/-- Claim C9: although every accessor sets the package-level flag pointers to
nil after its first completed run, no sequential execution of GetFromFlags*
calls started from the parsed initial state ever dereferences a nil flag
pointer: every call after the first returns early on the non-nil logger
guard. -/
theorem C9_no_nil_dereference {W : Type} (fl : Flags)
    (cs : List (CallKind W)) :
    runCalls (initialState W fl) cs ≠ .error .nilDereference :=
  runCalls_no_nil_aux cs (initialState W fl)
    (by simp [initialState, PtrsLive])

/-- Witness for C9 at a concrete run: two plain calls followed by a date and
a writer call at the default configuration never nil-dereference. -/
theorem C9_witness :
    runCalls (initialState Unit defaultFlags)
        [CallKind.plain, CallKind.plain, CallKind.date,
         CallKind.withWriter ()] ≠
      .error .nilDereference :=
  C9_no_nil_dereference defaultFlags
    [CallKind.plain, CallKind.plain, CallKind.date, CallKind.withWriter ()]

/-- Claim C10: when the resolved flush threshold is not None, all four
accessors construct the identical Buffered logger buflog.New with the same
resolved sink and thresholds: the date and writer distinctions only affect
the logger constructed when the flush threshold is None. -/
theorem C10_buffered_agreement {W : Type} (tn fn : String) (b : Bool)
    (T F : Level) (w w2 : W)
    (hT : GetLevelFromName tn = .ok T) (hF : GetLevelFromName fn = .ok F)
    (hne : F ≠ Level.None) :
    GetFromFlags (initialState W ⟨tn, b, fn⟩) =
      .ok (buflog.New (getStream b) T F,
        { logger := some (buflog.New (getStream b) T F),
          thresholdName := none, logToStderr := none,
          flushThresholdName := none }) ∧
    GetFromFlagsDate (initialState W ⟨tn, b, fn⟩) =
      .ok (buflog.New (getStream b) T F,
        { logger := some (buflog.New (getStream b) T F),
          thresholdName := none, logToStderr := none,
          flushThresholdName := none }) ∧
    GetFromFlagsWriter w (initialState W ⟨tn, b, fn⟩) =
      .ok (buflog.New (getStream b) T F,
        { logger := some (buflog.New (getStream b) T F),
          thresholdName := none, logToStderr := none,
          flushThresholdName := none }) ∧
    GetFromFlagsDateWriter w2 (initialState W ⟨tn, b, fn⟩) =
      .ok (buflog.New (getStream b) T F,
        { logger := some (buflog.New (getStream b) T F),
          thresholdName := none, logToStderr := none,
          flushThresholdName := none }) := by
  refine ⟨?_, ?_, ?_, ?_⟩ <;>
    simp [GetFromFlags, GetFromFlagsDate, GetFromFlagsWriter,
          GetFromFlagsDateWriter, initialState, hT, hF, hne]

/-- Witness for C10 at the configuration log=info, flushlog=error, with two
distinct writer callbacks. -/
theorem C10_witness :
    GetFromFlags (initialState Nat ⟨"info", false, "error"⟩) =
      .ok (buflog.New Stream.stdout Level.Info Level.Error,
        { logger := some (buflog.New Stream.stdout Level.Info Level.Error),
          thresholdName := none, logToStderr := none,
          flushThresholdName := none }) ∧
    GetFromFlagsDate (initialState Nat ⟨"info", false, "error"⟩) =
      .ok (buflog.New Stream.stdout Level.Info Level.Error,
        { logger := some (buflog.New Stream.stdout Level.Info Level.Error),
          thresholdName := none, logToStderr := none,
          flushThresholdName := none }) ∧
    GetFromFlagsWriter 3 (initialState Nat ⟨"info", false, "error"⟩) =
      .ok (buflog.New Stream.stdout Level.Info Level.Error,
        { logger := some (buflog.New Stream.stdout Level.Info Level.Error),
          thresholdName := none, logToStderr := none,
          flushThresholdName := none }) ∧
    GetFromFlagsDateWriter 4 (initialState Nat ⟨"info", false, "error"⟩) =
      .ok (buflog.New Stream.stdout Level.Info Level.Error,
        { logger := some (buflog.New Stream.stdout Level.Info Level.Error),
          thresholdName := none, logToStderr := none,
          flushThresholdName := none }) :=
  C10_buffered_agreement "info" "error" false Level.Info Level.Error 3 4
    rfl rfl (by decide)

end Stdlog
